import Mathlib

/-!
Shallow embedding of `shell.py` (ShellTools): an asyncio-backed `cmd.Cmd`
shell.  Side effects on the output stream are modelled as event traces; the
mutable shell object is modelled as an explicit state record.
-/

/-- ANSI "cursor up one line" sequence, `UP_GOER = "\x1b[F"` in the source. -/
def UP_GOER : String := "\x1b[F"

/-- Python `line.split()` with no argument: split on runs of whitespace and
drop empty fields. -/
def pyWords (s : String) : List String :=
  ((s.toList.splitOnP Char.isWhitespace).map String.mk).filter (fun w => w ≠ "")

/-- `_line_eraser()`: carriage return, one space per terminal column, carriage
return.  The terminal width is passed explicitly (`os.get_terminal_size().columns`). -/
def _line_eraser (columns : Nat) : String :=
  "\r" ++ String.mk (List.replicate columns ' ') ++ "\r"

namespace tmg

/-- SGR wrapper used to model the external `terminology` styling library. -/
def sgr (code : Nat) (reset : Nat) (s : String) : String :=
  "\x1b[" ++ toString code ++ "m" ++ s ++ "\x1b[" ++ toString reset ++ "m"

def in_red (s : String) : String := sgr 31 39 s

def in_green (s : String) : String := sgr 32 39 s

def in_yellow (s : String) : String := sgr 33 39 s

def in_bold (s : String) : String := sgr 1 22 s

end tmg

/-- Python exception values relevant to the shell.  `SystemExit` and
`asyncio.CancelledError` derive from `BaseException` but not from `Exception`
(Python is 3.8 or newer). -/
inductive PyExc where
  | shellError (msg : String)
  | systemExit
  | runtimeError (msg : String)
  | cancelledError
  | indexError
  | assertionError
  | otherError (msg : String)
deriving DecidableEq, Repr

/-- Whether the value is an instance of `ShellError`. -/
def PyExc.isShellError : PyExc → Bool
  | .shellError _ => true
  | _ => false

/-- Whether the exception class derives from Python `Exception` (as opposed to
`BaseException` only): `SystemExit` and `asyncio.CancelledError` do not. -/
def PyExc.isException : PyExc → Bool
  | .systemExit => false
  | .cancelledError => false
  | _ => true

/-- Python `str(e)` for the exceptions above. -/
def PyExc.str : PyExc → String
  | .shellError m => m
  | .runtimeError m => m
  | .otherError m => m
  | .systemExit => ""
  | .cancelledError => ""
  | .indexError => ""
  | .assertionError => ""

/-- The mutable state of one `Shell` instance: `continue_` is `__continue`
(the accepting flag), `use_rawinput` the interactive flag, `banner` the
`__banner` slot, `columns` the terminal width seen by `_line_eraser`. -/
structure Shell where
  continue_ : Bool
  use_rawinput : Bool
  banner : Option String
  columns : Nat
deriving DecidableEq, Repr

/-- Observable events on the synchronized output stream and the banner
lifecycle.  `acquire`/`release` are the stream lock, `writeRaw` is
`_SynchronizedOStream.write_raw`, `forcedUpdate` is
`rle.forced_update_display()`, `setStopEvent` is `__update_banner_stop_event.set()`
and `clearBanner` is the `self.__banner = None` assignment. -/
inductive Ev where
  | acquire
  | release
  | writeRaw (s : String)
  | forcedUpdate
  | setStopEvent
  | clearBanner
deriving DecidableEq, Repr

/-- Modelled from the spec: `_SynchronizedOStream` (class `_synchronized_output`,
not under src/) wraps the raw sink with a mutual-exclusion lock and
`write_raw` writes the given text verbatim to the sink while the lock is
held.  The bytes reaching the sink from a trace are the concatenation of the
`writeRaw` payloads. -/
def sinkBytes (t : List Ev) : String :=
  t.foldl (fun acc e => match e with | Ev.writeRaw s => acc ++ s | _ => acc) ""

/-- Number of `write_raw` calls in a trace. -/
def writeCount (t : List Ev) : Nat :=
  (t.filter fun e => match e with | Ev.writeRaw _ => true | _ => false).length

/-- The compound string handed to `write_raw` by `Shell.log`: the modifier is
applied only when interactive; interactive mode prepends the line eraser,
appends a newline and re-emits the banner with a cursor-up when one is
active; non-interactive mode appends a newline only. -/
def Shell.logPayload (sh : Shell) (msg : String)
    (modifier : Option (String → String)) : String :=
  let msg1 :=
    match modifier with
    | some m => if sh.use_rawinput then m msg else msg
    | none => msg
  if sh.use_rawinput then
    let base := _line_eraser sh.columns ++ msg1 ++ "\n"
    match sh.banner with
    | some b => base ++ _line_eraser sh.columns ++ "\n" ++ b ++ UP_GOER
    | none => base
  else
    msg1 ++ "\n"

/-- `Shell.log`: acquire the stream lock, write the compound message raw,
force the readline redisplay when interactive and requested, release the
lock. -/
def Shell.log (sh : Shell) (msg : String) (modifier : Option (String → String))
    (regenerate_prompt : Bool) : List Ev :=
  [Ev.acquire, Ev.writeRaw (sh.logPayload msg modifier)]
    ++ (if sh.use_rawinput && regenerate_prompt then [Ev.forcedUpdate] else [])
    ++ [Ev.release]

/-- `Shell.log_error`: log with the red modifier. -/
def Shell.log_error (sh : Shell) (msg : String) : List Ev :=
  sh.log msg (some tmg.in_red) true

/-- `Shell.log_help`: log with the green modifier. -/
def Shell.log_help (sh : Shell) (msg : String) : List Ev :=
  sh.log msg (some tmg.in_green) true

/-- `Shell.log_status`: log with the bold yellow modifier. -/
def Shell.log_status (sh : Shell) (msg : String) (regenerate_prompt : Bool) : List Ev :=
  sh.log msg (some fun x => tmg.in_yellow (tmg.in_bold x)) regenerate_prompt

/-- `Shell.default`: log that the first word of the line is not a command and
return `not self.__continue`.  On a line with no words, `line.split()[0]`
raises `IndexError` (the read loop never passes such a line to `default`). -/
def Shell.default (sh : Shell) (line : String) : Except PyExc (Bool × List Ev) :=
  match pyWords line with
  | [] => Except.error PyExc.indexError
  | w :: _ =>
    Except.ok (!sh.continue_,
      sh.log_error ("`" ++ tmg.in_bold w ++ "` is not a command"))

/-- Completion callbacks registered on an asyncio task. -/
inductive Callback where
  | finalize_task
deriving DecidableEq, Repr

/-- Completion state of an asyncio task. -/
inductive TaskCompletion where
  | pending
  | succeeded
  | failed (e : PyExc)
  | cancelled
deriving DecidableEq, Repr

/-- One asyncio task in the loop, identified by its coroutine id. -/
structure AioTask where
  coro : Nat
  done_callbacks : List Callback
  completion : TaskCompletion
deriving DecidableEq, Repr

/-- `Shell.__create_task` (run inside the event loop thread through
`call_soon_threadsafe`): create a task for the coroutine and register
`__finalize_task` as its done callback. -/
def Shell.create_task_impl (tasks : List AioTask) (coro : Nat) : List AioTask :=
  tasks ++ [{ coro := coro, done_callbacks := [Callback.finalize_task],
              completion := TaskCompletion.pending }]

/-- `Shell.create_task`: if the shell is not accepting, do nothing and return
`True` (the cmd stop flag); otherwise submit `__create_task` through
`call_soon_threadsafe` and return `False` immediately. -/
def Shell.create_task (sh : Shell) (tasks : List AioTask) (coro : Nat) :
    Bool × List AioTask :=
  if !sh.continue_ then
    (true, tasks)
  else
    (false, Shell.create_task_impl tasks coro)

/-- Outcome of a completed task as seen by `task.exception()`:
`ok` returns `None`, `failed e` returns `e`, `cancelled` raises
`CancelledError`. -/
inductive TaskOutcome where
  | ok
  | failed (e : PyExc)
  | cancelled
deriving DecidableEq, Repr

/-- Result of running `__finalize_task`: the new shell state, the output
events produced, and any exception escaping the callback (neither `except`
clause matched). -/
structure FinalizeResult where
  shell : Shell
  events : List Ev
  escaped : Option PyExc
deriving Repr

/-- `Shell.__finalize_task`: query the task exception and re-raise it;
`except ShellError` logs the message; `except Exception` clears the accepting
flag and logs the error plus the quit instruction; anything deriving only
from `BaseException` (including the `CancelledError` raised by
`task.exception()` on a cancelled task) matches neither clause and escapes. -/
def Shell.finalize_task (sh : Shell) (outcome : TaskOutcome) : FinalizeResult :=
  match outcome with
  | TaskOutcome.ok => { shell := sh, events := [], escaped := none }
  | TaskOutcome.cancelled =>
    { shell := sh, events := [], escaped := some PyExc.cancelledError }
  | TaskOutcome.failed e =>
    if e.isShellError then
      { shell := sh, events := sh.log_error e.str, escaped := none }
    else if e.isException then
      let sh1 : Shell := { sh with continue_ := false }
      { shell := sh1,
        events := sh1.log_error ("An unrecoverable error has occured : " ++ e.str)
          ++ sh1.log_status "Press ENTER to quit." true,
        escaped := none }
    else
      { shell := sh, events := [], escaped := some e }

/-- Handle yielded by the `banner` context manager. -/
structure BannerHandle where
  banner : String
  refresh_delay_s : Nat
deriving DecidableEq, Repr

/-- Entry half of `Shell.banner` (code before `yield`): raise `RuntimeError`
if a banner is already displayed, leaving the state untouched; otherwise
install the banner, create the stop event and spawn the update task. -/
def Shell.bannerEnter (sh : Shell) (banner : String) (refresh_delay_s : Nat) :
    Except PyExc BannerHandle × Shell :=
  match sh.banner with
  | some _ =>
    (Except.error (PyExc.runtimeError "A banner is already being displayed"), sh)
  | none =>
    (Except.ok { banner := banner, refresh_delay_s := refresh_delay_s },
     { sh with banner := some banner })

/-- First write of `__update_banner_task`: draw the banner immediately. -/
def Shell.update_banner_initial (b : String) : List Ev :=
  [Ev.acquire, Ev.writeRaw ("\n" ++ b ++ UP_GOER), Ev.forcedUpdate, Ev.release]

/-- One refresh iteration of `__update_banner_task`. -/
def Shell.update_banner_refresh (sh : Shell) (b : String) : List Ev :=
  [Ev.acquire,
   Ev.writeRaw ("\n" ++ _line_eraser sh.columns ++ b ++ UP_GOER ++ _line_eraser sh.columns),
   Ev.forcedUpdate, Ev.release]

/-- Final cleanup write of `__update_banner_task`: erase the banner line and
move the cursor back up. -/
def Shell.update_banner_cleanup (sh : Shell) : List Ev :=
  [Ev.acquire, Ev.writeRaw ("\n" ++ _line_eraser sh.columns ++ UP_GOER),
   Ev.forcedUpdate, Ev.release]

/-- The full event trace of one run of `__update_banner_task`, parameterized
by the number `n` of refresh iterations performed before the stop event is
observed.  The task asserts a banner is set and returns immediately, writing
nothing, when not interactive. -/
def Shell.update_banner_task (sh : Shell) (n : Nat) : Except PyExc (List Ev) :=
  match sh.banner with
  | none => Except.error PyExc.assertionError
  | some b =>
    if !sh.use_rawinput then Except.ok []
    else Except.ok (Shell.update_banner_initial b
      ++ (List.replicate n (Shell.update_banner_refresh sh b)).flatten
      ++ Shell.update_banner_cleanup sh)

/-- Exit half of `Shell.banner` (code after `yield`): set the stop event,
await the update task (whose remaining work from that point is the final
cleanup write when interactive, nothing otherwise), then clear the
active-banner slot. -/
def Shell.bannerExit (sh : Shell) : Shell × List Ev :=
  let remaining := if sh.use_rawinput then Shell.update_banner_cleanup sh else []
  ({ sh with banner := none },
   Ev.setStopEvent :: remaining ++ [Ev.clearBanner])

/-- Effect of a `_Parser` entry point: events written and exception raised. -/
structure ParserEffect where
  events : List Ev
  raised : Option PyExc
deriving Repr

/-- `_Parser.print_usage`: log the stripped usage string through the shell
logger. -/
def Parser.print_usage (sh : Shell) (usage : String) : List Ev :=
  sh.log_error usage.trim

/-- `_Parser.error`: print the usage, log the failure message through the
shell logger, and raise `SystemExit` (instead of letting argparse call
`sys.exit`). -/
def Parser.error (sh : Shell) (usage : String) (msg : String) : ParserEffect :=
  { events := Parser.print_usage sh usage ++ sh.log_error msg,
    raised := some PyExc.systemExit }

/-- Outcome of `_Parser.parse` on one input line: success, or a parse failure
reported through `_Parser.error` with the usage string and the specific
message. -/
inductive ParseResult where
  | ok
  | failure (usage : String) (msg : String)
deriving DecidableEq, Repr

/-- Effect of `_Wrapper.__call__`: events written and exception escaping. -/
structure CallEffect where
  events : List Ev
  escaped : Option PyExc
deriving Repr

/-- `_Wrapper.__call__` on the binder path: parse the line; on parse failure
the parser logs and raises `SystemExit`, which the wrapper catches with
`except SystemExit: pass`, so the command body is not run and nothing
escapes. -/
def Wrapper.call (sh : Shell) (pr : ParseResult) : CallEffect :=
  match pr with
  | ParseResult.ok => { events := [], escaped := none }
  | ParseResult.failure usage msg =>
    let eff := Parser.error sh usage msg
    { events := eff.events,
      escaped := if eff.raised = some PyExc.systemExit then none else eff.raised }

/-- Interleaving of two tagged event traces into one, preserving each trace's
internal order. -/
inductive Interleave :
    List (Bool × Ev) → List (Bool × Ev) → List (Bool × Ev) → Prop where
  | nil : Interleave [] [] []
  | left {x xs ys zs} : Interleave xs ys zs → Interleave (x :: xs) ys (x :: zs)
  | right {y xs ys zs} : Interleave xs ys zs → Interleave xs (y :: ys) (y :: zs)

/-- Tag every event of a trace with the id of the thread emitting it. -/
def tag (i : Bool) (t : List Ev) : List (Bool × Ev) :=
  t.map (fun e => (i, e))

/-- Lock-semantics validity of a merged trace: `acquire` only when the lock is
free, `release` only by the current owner. -/
def lockValid : Option Bool → List (Bool × Ev) → Bool
  | _, [] => true
  | owner, (i, e) :: rest =>
    match e, owner with
    | Ev.acquire, none => lockValid (some i) rest
    | Ev.acquire, some _ => false
    | Ev.release, some j => i == j && lockValid none rest
    | Ev.release, none => false
    | _, _ => lockValid owner rest

/-- Whether an event neither takes nor gives up the lock. -/
def evNeutral : Ev → Bool
  | Ev.acquire => false
  | Ev.release => false
  | _ => true

/-- Events that neither take nor give up the lock. -/
def lockNeutral (t : List Ev) : Bool :=
  t.all evNeutral

/-! ## Helper lemmas -/

theorem writeCount_append (a b : List Ev) :
    writeCount (a ++ b) = writeCount a + writeCount b := by
  simp [writeCount, List.filter_append]

theorem writeCount_log (sh : Shell) (msg : String)
    (modifier : Option (String → String)) (rp : Bool) :
    writeCount (Shell.log sh msg modifier rp) = 1 := by
  cases hu : sh.use_rawinput <;> cases hr : rp <;>
    simp [Shell.log, writeCount, hu, hr]

theorem finalize_task_banner (sh : Shell) (o : TaskOutcome) :
    (Shell.finalize_task sh o).shell.banner = sh.banner := by
  cases o with
  | ok => rfl
  | cancelled => rfl
  | failed e =>
    by_cases h1 : e.isShellError <;> by_cases h2 : e.isException <;>
      simp [Shell.finalize_task, h1, h2]

/-! ## Claim theorems -/

/-- C1: the finalizer classifies a completed task's outcome in exactly two
handled ways: a `ShellError` gets its message logged once through the output
channel with the shell state unchanged (so `accepting` stays true); any other
`Exception` clears the accepting flag and logs two messages, the error itself
and the instruction that the session ends on further input; a task that
raised nothing changes no state and logs nothing. -/
theorem finalize_task_classification (sh : Shell) (m : String) (e : PyExc)
    (hse : e.isShellError = false) (hex : e.isException = true) :
    Shell.finalize_task sh TaskOutcome.ok = { shell := sh, events := [], escaped := none }
    ∧ (Shell.finalize_task sh (TaskOutcome.failed (PyExc.shellError m))).shell = sh
    ∧ (Shell.finalize_task sh (TaskOutcome.failed (PyExc.shellError m))).events
        = sh.log_error m
    ∧ writeCount (Shell.finalize_task sh (TaskOutcome.failed (PyExc.shellError m))).events = 1
    ∧ (Shell.finalize_task sh (TaskOutcome.failed e)).shell
        = { sh with continue_ := false }
    ∧ (Shell.finalize_task sh (TaskOutcome.failed e)).events
        = Shell.log_error { sh with continue_ := false }
            ("An unrecoverable error has occured : " ++ e.str)
          ++ Shell.log_status { sh with continue_ := false } "Press ENTER to quit." true
    ∧ writeCount (Shell.finalize_task sh (TaskOutcome.failed e)).events = 2 := by
  refine ⟨rfl, rfl, rfl, ?_, ?_, ?_, ?_⟩
  · simp [Shell.finalize_task, PyExc.isShellError, Shell.log_error, writeCount_log]
  · simp [Shell.finalize_task, hse, hex]
  · simp [Shell.finalize_task, hse, hex]
  · simp [Shell.finalize_task, hse, hex, writeCount_append, Shell.log_error,
      Shell.log_status, writeCount_log]

/-- C1 witness at a concrete shell and a concrete unrecoverable error. -/
theorem finalize_task_classification_witness :
    (PyExc.otherError "boom").isShellError = false
    ∧ (PyExc.otherError "boom").isException = true
    ∧ (Shell.finalize_task ⟨true, false, none, 3⟩
        (TaskOutcome.failed (PyExc.otherError "boom"))).shell
        = { Shell.mk true false none 3 with continue_ := false } :=
  ⟨rfl, rfl,
   (finalize_task_classification ⟨true, false, none, 3⟩ "oops"
      (PyExc.otherError "boom") rfl rfl).2.2.2.2.1⟩

/-- C2: with the accepting flag false, `create_task` schedules nothing and
returns the cmd stop flag `true`; with the flag true, it submits the
coroutine through the loop's thread-safe primitive, which appends a pending
task carrying the finalizer as completion callback, and returns `false`
immediately. -/
theorem create_task_schedule (sh : Shell) (tasks : List AioTask) (coro : Nat) :
    (sh.continue_ = false → Shell.create_task sh tasks coro = (true, tasks))
    ∧ (sh.continue_ = true →
        Shell.create_task sh tasks coro
          = (false, tasks ++ [{ coro := coro,
                                done_callbacks := [Callback.finalize_task],
                                completion := TaskCompletion.pending }])) := by
  constructor <;> intro h <;> simp [Shell.create_task, Shell.create_task_impl, h]

/-- C2 witness at a concrete non-accepting shell. -/
theorem create_task_schedule_witness :
    Shell.create_task ⟨false, false, none, 3⟩ [] 7 = (true, []) :=
  (create_task_schedule ⟨false, false, none, 3⟩ [] 7).1 rfl

/-- C4: on any line with at least one word, the `default` handler logs the
unknown-command message and returns `not continue_`: the stop signal `true`
exactly when the accepting flag is false, the continue signal `false` while
it is true. -/
theorem default_stop_signal (sh : Shell) (line : String) (w : String)
    (ws : List String) (h : pyWords line = w :: ws) :
    Shell.default sh line
      = Except.ok (!sh.continue_,
          sh.log_error ("`" ++ tmg.in_bold w ++ "` is not a command")) := by
  simp [Shell.default, h]

/-- C4 witness on the line "foo" against a non-accepting shell. -/
theorem default_stop_signal_witness :
    pyWords "foo" = ["foo"]
    ∧ Shell.default ⟨false, false, none, 3⟩ "foo"
        = Except.ok (true,
            Shell.log_error ⟨false, false, none, 3⟩
              ("`" ++ tmg.in_bold "foo" ++ "` is not a command")) :=
  ⟨by decide, default_stop_signal ⟨false, false, none, 3⟩ "foo" "foo" [] (by decide)⟩

/-- C5: in non-interactive mode every log call writes exactly the message
followed by one newline: no eraser, no banner re-emit, no forced redisplay,
and the error/help/status helpers apply no visual wrapping. -/
theorem log_noninteractive_plain (sh : Shell) (msg : String)
    (modifier : Option (String → String)) (rp : Bool)
    (h : sh.use_rawinput = false) :
    Shell.log sh msg modifier rp = [Ev.acquire, Ev.writeRaw (msg ++ "\n"), Ev.release]
    ∧ sh.log_error msg = [Ev.acquire, Ev.writeRaw (msg ++ "\n"), Ev.release]
    ∧ sh.log_help msg = [Ev.acquire, Ev.writeRaw (msg ++ "\n"), Ev.release]
    ∧ sh.log_status msg rp = [Ev.acquire, Ev.writeRaw (msg ++ "\n"), Ev.release]
    ∧ sinkBytes (Shell.log sh msg modifier rp) = msg ++ "\n" := by
  refine ⟨?_, ?_, ?_, ?_, ?_⟩ <;>
    cases modifier <;>
      simp [Shell.log, Shell.logPayload, Shell.log_error, Shell.log_help,
        Shell.log_status, sinkBytes, h]

/-- C5 witness at a concrete redirected-stream shell. -/
theorem log_noninteractive_plain_witness :
    (Shell.mk true false none 3).use_rawinput = false
    ∧ Shell.log ⟨true, false, none, 3⟩ "hi" none true
        = [Ev.acquire, Ev.writeRaw ("hi" ++ "\n"), Ev.release] :=
  ⟨rfl, (log_noninteractive_plain ⟨true, false, none, 3⟩ "hi" none true rfl).1⟩

/-- C6: starting a banner while one is active raises the RuntimeError and
returns with the shell state untouched, the first banner still in its slot. -/
theorem banner_second_start_fails (sh : Shell) (b0 b1 : String) (d1 : Nat)
    (h : sh.banner = some b0) :
    Shell.bannerEnter sh b1 d1
      = (Except.error (PyExc.runtimeError "A banner is already being displayed"), sh)
    ∧ (Shell.bannerEnter sh b1 d1).2.banner = some b0 := by
  simp [Shell.bannerEnter, h]

/-- C6 witness with a banner already active. -/
theorem banner_second_start_fails_witness :
    (Shell.mk true true (some "bar0") 3).banner = some "bar0"
    ∧ Shell.bannerEnter ⟨true, true, some "bar0", 3⟩ "bar1" 2
        = (Except.error (PyExc.runtimeError "A banner is already being displayed"),
           ⟨true, true, some "bar0", 3⟩) :=
  ⟨rfl, (banner_second_start_fails ⟨true, true, some "bar0", 3⟩ "bar0" "bar1" 2 rfl).1⟩

/-- C7: stopping an active banner in interactive mode produces, in order, the
stop-event signal, the awaited task's final cleanup write (line eraser plus
cursor restore) under the lock, and the clearing of the active-banner slot,
so the returned state has an empty banner slot. -/
theorem banner_stop_transition (sh : Shell) (b : String)
    (hb : sh.banner = some b) (hraw : sh.use_rawinput = true) :
    Shell.bannerExit sh
      = ({ sh with banner := none },
         [Ev.setStopEvent, Ev.acquire,
          Ev.writeRaw ("\n" ++ _line_eraser sh.columns ++ UP_GOER),
          Ev.forcedUpdate, Ev.release, Ev.clearBanner])
    ∧ (Shell.bannerExit sh).1.banner = none := by
  simp [Shell.bannerExit, Shell.update_banner_cleanup, hraw]

/-- C7 witness on a concrete interactive shell with an active banner. -/
theorem banner_stop_transition_witness :
    (Shell.mk true true (some "bar") 3).banner = some "bar"
    ∧ (Shell.mk true true (some "bar") 3).use_rawinput = true
    ∧ (Shell.bannerExit ⟨true, true, some "bar", 3⟩).1.banner = none :=
  ⟨rfl, rfl, (banner_stop_transition ⟨true, true, some "bar", 3⟩ "bar" rfl rfl).2⟩

/-- C9: a cancelled task matches neither `except` clause of the finalizer:
the `CancelledError` raised by `task.exception()` is not a `ShellError` and
not an `Exception`, so the shell state is unchanged, nothing is logged, and
the error escapes the callback. -/
theorem finalize_task_cancelled (sh : Shell) :
    Shell.finalize_task sh TaskOutcome.cancelled
      = { shell := sh, events := [], escaped := some PyExc.cancelledError }
    ∧ PyExc.cancelledError.isShellError = false
    ∧ PyExc.cancelledError.isException = false :=
  ⟨rfl, rfl, rfl⟩

/-- C10: in non-interactive mode a banner start still occupies the single
active-banner slot even though the refresh task writes nothing; a second
start then raises the already-active error; the slot survives any finalizer
run and is cleared by the stop transition. -/
theorem banner_noninteractive_slot (sh : Shell) (b b2 : String) (d d2 n : Nat)
    (o : TaskOutcome) (hb : sh.banner = none) (hraw : sh.use_rawinput = false) :
    (Shell.bannerEnter sh b d).2.banner = some b
    ∧ Shell.update_banner_task (Shell.bannerEnter sh b d).2 n = Except.ok []
    ∧ Shell.bannerEnter (Shell.bannerEnter sh b d).2 b2 d2
        = (Except.error (PyExc.runtimeError "A banner is already being displayed"),
           (Shell.bannerEnter sh b d).2)
    ∧ (Shell.bannerExit (Shell.bannerEnter sh b d).2).1.banner = none
    ∧ (Shell.finalize_task (Shell.bannerEnter sh b d).2 o).shell.banner = some b := by
  refine ⟨?_, ?_, ?_, ?_, ?_⟩
  · simp [Shell.bannerEnter, hb]
  · simp [Shell.bannerEnter, Shell.update_banner_task, hb, hraw]
  · simp [Shell.bannerEnter, hb]
  · simp [Shell.bannerEnter, Shell.bannerExit, hb]
  · rw [finalize_task_banner]
    simp [Shell.bannerEnter, hb]

/-- C10 witness on a concrete non-interactive shell. -/
theorem banner_noninteractive_slot_witness :
    (Shell.mk true false none 3).banner = none
    ∧ (Shell.mk true false none 3).use_rawinput = false
    ∧ Shell.update_banner_task (Shell.bannerEnter ⟨true, false, none, 3⟩ "bar" 2).2 5
        = Except.ok [] :=
  ⟨rfl, rfl,
   (banner_noninteractive_slot ⟨true, false, none, 3⟩ "bar" "bar2" 2 2 5
      TaskOutcome.ok rfl rfl).2.1⟩

/-- C3 counterexample: at a concrete parse failure, `_Parser.error` raises
`SystemExit`, which is not a recoverable `ShellError`, so the claim that the
binder raises a recoverable command error is false as stated. -/
theorem parse_failure_raises_systemexit_cex :
    (Parser.error ⟨true, false, none, 3⟩ "usage: increment_by [-h] n"
        "argument n: invalid int value: x").raised = some PyExc.systemExit
    ∧ PyExc.systemExit.isShellError = false :=
  ⟨rfl, rfl⟩

/-- C3 (amended): on a parse failure the binder logs the stripped usage
string and the specific failure message through the shell's own logger, and
raises `SystemExit`, which the command wrapper catches, so no exception
escapes and the process is not terminated. -/
theorem parse_failure_recovery (sh : Shell) (usage msg : String) :
    Wrapper.call sh (ParseResult.failure usage msg)
      = { events := sh.log_error usage.trim ++ sh.log_error msg,
          escaped := none } := by
  simp [Wrapper.call, Parser.error, Parser.print_usage]

/-! ## Lock serialization (C8) -/

theorem tag_cons (i : Bool) (e : Ev) (t : List Ev) :
    tag i (e :: t) = (i, e) :: tag i t := rfl

theorem tag_release (i : Bool) (t : List Ev) :
    tag i (t ++ [Ev.release]) = tag i t ++ [(i, Ev.release)] := by
  simp [tag]

theorem interleave_nil_left {ys zs : List (Bool × Ev)}
    (h : Interleave [] ys zs) : zs = ys := by
  induction ys generalizing zs with
  | nil => cases h; rfl
  | cons y ys ih =>
    cases h with
    | right h2 => simp [ih h2]

theorem interleave_nil_all (ys : List (Bool × Ev)) : Interleave [] ys ys := by
  induction ys with
  | nil => exact Interleave.nil
  | cons y ys ih => exact Interleave.right ih

theorem interleave_append (xs ys : List (Bool × Ev)) :
    Interleave xs ys (xs ++ ys) := by
  induction xs with
  | nil => simpa using interleave_nil_all ys
  | cons x xs ih => exact Interleave.left ih

theorem interleave_swap {xs ys zs : List (Bool × Ev)}
    (h : Interleave xs ys zs) : Interleave ys xs zs := by
  induction h with
  | nil => exact Interleave.nil
  | left h ih => exact Interleave.right ih
  | right h ih => exact Interleave.left ih

theorem lockValid_cons_neutral (owner : Option Bool) (i : Bool) (e : Ev)
    (he : evNeutral e = true) (rest : List (Bool × Ev)) :
    lockValid owner ((i, e) :: rest) = lockValid owner rest := by
  cases e <;> cases owner <;> simp_all [lockValid, evNeutral]

theorem lockValid_cons_acquire_locked (k i : Bool) (rest : List (Bool × Ev)) :
    lockValid (some k) ((i, Ev.acquire) :: rest) = false := by
  simp [lockValid]

/-- While thread `i` holds the lock and still has lock-neutral work followed
by its release, and the other trace is blocked on an acquire, every valid
interleaving runs thread `i` to its release first and only then the rest. -/
theorem interleave_locked_run (i j : Bool) (body : List Ev)
    (tb m : List (Bool × Ev)) (hbody : lockNeutral body = true)
    (hI : Interleave (tag i body ++ [(i, Ev.release)]) ((j, Ev.acquire) :: tb) m)
    (hV : lockValid (some i) m = true) :
    m = (tag i body ++ [(i, Ev.release)]) ++ (j, Ev.acquire) :: tb := by
  induction body generalizing m with
  | nil =>
    simp only [tag, List.map_nil, List.nil_append] at hI ⊢
    cases hI with
    | left h2 =>
      rename_i zs
      have hz := interleave_nil_left h2
      simp [hz]
    | right h2 =>
      rw [lockValid_cons_acquire_locked] at hV
      exact Bool.noConfusion hV
  | cons e body ih =>
    rw [tag_cons, List.cons_append] at hI ⊢
    have hall : evNeutral e = true ∧ lockNeutral body = true := by
      simpa only [lockNeutral, List.all_cons, Bool.and_eq_true] using hbody
    cases hI with
    | left h2 =>
      rename_i zs
      rw [lockValid_cons_neutral _ _ _ hall.1] at hV
      simp [ih zs hall.2 h2 hV]
    | right h2 =>
      rw [lockValid_cons_acquire_locked] at hV
      exact Bool.noConfusion hV

/-- Any lock-valid interleaving of two acquire-write-release blocks is one of
the two sequential orders: the lock serializes the compound writes. -/
theorem interleave_lock_serializes (bodyA bodyB : List Ev)
    (m : List (Bool × Ev))
    (hA : lockNeutral bodyA = true) (hB : lockNeutral bodyB = true)
    (hI : Interleave (tag false (Ev.acquire :: (bodyA ++ [Ev.release])))
            (tag true (Ev.acquire :: (bodyB ++ [Ev.release]))) m)
    (hV : lockValid none m = true) :
    m = tag false (Ev.acquire :: (bodyA ++ [Ev.release]))
          ++ tag true (Ev.acquire :: (bodyB ++ [Ev.release]))
    ∨ m = tag true (Ev.acquire :: (bodyB ++ [Ev.release]))
          ++ tag false (Ev.acquire :: (bodyA ++ [Ev.release])) := by
  rw [tag_cons, tag_cons] at hI ⊢
  rw [tag_release, tag_release] at hI ⊢
  cases hI with
  | left h2 =>
    rename_i zs
    have hV2 : lockValid (some false) zs = true := by
      simpa [lockValid] using hV
    have hrun := interleave_locked_run false true bodyA _ zs hA h2 hV2
    left
    simp [hrun]
  | right h2 =>
    rename_i zs
    have hV2 : lockValid (some true) zs = true := by
      simpa [lockValid] using hV
    have hrun := interleave_locked_run true false bodyB _ zs hB
      (interleave_swap h2) hV2
    right
    simp [hrun]

/-- Shape of a `log` trace: one acquire, then only writes and redisplays,
then one release — the lock is held across the whole compound write. -/
theorem log_shape (sh : Shell) (msg : String)
    (modifier : Option (String → String)) (rp : Bool) :
    Shell.log sh msg modifier rp
      = Ev.acquire ::
          ((Ev.writeRaw (sh.logPayload msg modifier)
              :: (if sh.use_rawinput && rp then [Ev.forcedUpdate] else []))
            ++ [Ev.release])
    ∧ lockNeutral (Ev.writeRaw (sh.logPayload msg modifier)
          :: (if sh.use_rawinput && rp then [Ev.forcedUpdate] else [])) = true := by
  constructor
  · simp [Shell.log]
  · cases hc : sh.use_rawinput && rp <;> simp [lockNeutral, evNeutral, hc]

/-- C8: each `log` call holds the output lock from before its first byte to
after the redisplay, so any lock-valid interleaving of two concurrent `log`
traces is exactly one of the two sequential orders: no two writes' bytes
interleave mid-line. -/
theorem log_writes_serialized (s1 s2 : Shell) (m1 m2 : String)
    (mod1 mod2 : Option (String → String)) (r1 r2 : Bool)
    (merged : List (Bool × Ev))
    (hI : Interleave (tag false (Shell.log s1 m1 mod1 r1))
            (tag true (Shell.log s2 m2 mod2 r2)) merged)
    (hV : lockValid none merged = true) :
    merged = tag false (Shell.log s1 m1 mod1 r1)
               ++ tag true (Shell.log s2 m2 mod2 r2)
    ∨ merged = tag true (Shell.log s2 m2 mod2 r2)
                 ++ tag false (Shell.log s1 m1 mod1 r1) := by
  obtain ⟨e1, n1⟩ := log_shape s1 m1 mod1 r1
  obtain ⟨e2, n2⟩ := log_shape s2 m2 mod2 r2
  rw [e1, e2] at hI ⊢
  exact interleave_lock_serializes _ _ merged n1 n2 hI hV

/-- C8 witness: a concrete valid interleaving of two log traces, shown to be
one of the two sequential orders. -/
theorem log_writes_serialized_witness :
    lockValid none (tag false (Shell.log ⟨true, false, none, 1⟩ "a" none true)
        ++ tag true (Shell.log ⟨true, false, none, 1⟩ "b" none true)) = true
    ∧ (tag false (Shell.log ⟨true, false, none, 1⟩ "a" none true)
          ++ tag true (Shell.log ⟨true, false, none, 1⟩ "b" none true)
            = tag false (Shell.log ⟨true, false, none, 1⟩ "a" none true)
              ++ tag true (Shell.log ⟨true, false, none, 1⟩ "b" none true)
        ∨ tag false (Shell.log ⟨true, false, none, 1⟩ "a" none true)
            ++ tag true (Shell.log ⟨true, false, none, 1⟩ "b" none true)
              = tag true (Shell.log ⟨true, false, none, 1⟩ "b" none true)
                ++ tag false (Shell.log ⟨true, false, none, 1⟩ "a" none true)) :=
  ⟨by rfl,
   log_writes_serialized ⟨true, false, none, 1⟩ ⟨true, false, none, 1⟩ "a" "b"
     none none true true _ (interleave_append _ _) (by rfl)⟩
